import Mathlib

/-!
Shallow embedding of `libraries/botbuilder-dialogs/botbuilder/dialogs/dialog_container.py`
(`DialogContainer`) together with the collaborating data model it operates on.

Only `dialog_container.py` is available as source; the collaborators it imports
(`Dialog`, `DialogSet`, `DialogContext`, `DialogEvent`, `DialogEvents`, the turn
context's `send_trace_activity`) are modelled from the specification, each marked
`Modelled from the spec:` in its doc comment.

Python's implicit mutable state is made explicit: container operations are
functions from a `TurnState` (the dialog context plus the observable effect
logs) to an `Except String` result, where `.error` models a raised Python
exception (`AttributeError` on a `None` dereference, or a collaborator's own
exception propagating through).
-/

/-- Modelled from the spec: a registered `Dialog` has an `id` (unique within its
owning `DialogSet`) and an optional declared version of its own, which the
set's structural fingerprint folds in.  (`dialog.py` is not part of the
analysed sources.) -/
structure Dialog where
  id : String
  declared_version : Option String := none
deriving DecidableEq, Repr

/-- Modelled from the spec: a `DialogSet` is an indexed collection of sibling
dialogs with unique ids, kept in a stable order for fingerprinting.
(`dialog_set.py` is not part of the analysed sources.) -/
structure DialogSet where
  dialogs : List Dialog := []
deriving DecidableEq, Repr

/-- Modelled from the spec: `DialogSet.find` returns the dialog registered under
`dialog_id`, or a not-found result; it never throws for a simple lookup.  The
source of `DialogContainer.find_dialog` calls it under the name `find_dialog`. -/
def DialogSet.find_dialog (ds : DialogSet) (dialog_id : String) : Option Dialog :=
  ds.dialogs.find? (fun d => d.id == dialog_id)

/-- Modelled from the spec: `DialogSet.get_internal_version` deterministically
combines the ids and declared versions of all current members into a single
opaque version token, a pure function of membership in order.
(`dialog_set.py` is not part of the analysed sources.) -/
def DialogSet.get_internal_version (ds : DialogSet) : String :=
  String.intercalate "|"
    (ds.dialogs.map (fun d => d.id ++ ":" ++ d.declared_version.getD ""))

/-- Modelled from the spec: the well-known event name used for structural
version changes (`dialog_events.py` is not part of the analysed sources). -/
def DialogEvents.version_changed : String := "versionChanged"

/-- Modelled from the spec: a persisted `DialogInstance` record on the active
stack: which dialog (`id`), and the last-observed structural fingerprint
(`version`, nullable).  Its opaque per-dialog `state` plays no role in the
container code and is omitted. -/
structure DialogInstance where
  id : String
  version : Option String := none
deriving DecidableEq, Repr

/-- Modelled from the spec: a `DialogContext` carries the ordered stack of
active `DialogInstance` records for the current turn; the head of the list is
the innermost (top) entry.  (`dialog_context.py` is not part of the analysed
sources.) -/
structure DialogContext where
  stack : List DialogInstance := []
deriving DecidableEq, Repr

/-- Modelled from the spec: `DialogContext.active_dialog` is the top of the
stack, or `none` (Python `None`) when the stack is empty. -/
def DialogContext.active_dialog (dc : DialogContext) : Option DialogInstance :=
  dc.stack.head?

/-- Modelled from the spec: a `DialogEvent` value: a `name`, an opaque payload
`value` (here a string, since the container passes its own id), a `bubble`
flag, and the from-leaf flag passed to `emit_event`. -/
structure DialogEvent where
  name : String
  value : String
  bubble : Bool
  from_leaf : Bool
deriving DecidableEq, Repr

/-- The observable state a container operation can read or write during a turn:
the dialog context, the trace activities sent through the turn context
(`dialog_context.context.send_trace_activity`), and the events emitted through
`dialog_context.emit_event`.  The two logs record the calls made to those
external collaborators, in order. -/
structure TurnState where
  ctx : DialogContext
  traces : List String := []
  events : List DialogEvent := []
deriving DecidableEq, Repr

/-- Python truthiness of an optional string, as in `if current:`: `None` and
the empty string are falsy, every other string is truthy. -/
def strTruthy : Option String → Bool
  | none => false
  | some s => s ≠ ""

/-- `DialogContainer`: a `Dialog` that owns a `DialogSet` (from
`dialog_container.py`: `self.dialogs = DialogSet()` at construction, and the
inherited `self.id`). -/
structure DialogContainer where
  id : String
  dialogs : DialogSet := {}
deriving DecidableEq, Repr

/-- From `dialog_container.py`:
`def find_dialog(self, dialog_id): return self.dialogs.find_dialog(dialog_id)`. -/
def DialogContainer.find_dialog (c : DialogContainer) (dialog_id : String) :
    Option Dialog :=
  c.dialogs.find_dialog dialog_id

/-- From `dialog_container.py`:
`def get_internal_version(self): return self.dialogs.get_internal_version()`. -/
def DialogContainer.get_internal_version (c : DialogContainer) : String :=
  c.dialogs.get_internal_version

/-- `find_dialog` with the turn state threaded through explicitly, to state
frame properties: the Python method only reads `self.dialogs` and touches no
turn state. -/
def DialogContainer.find_dialog_st (c : DialogContainer) (dialog_id : String)
    (s : TurnState) : Option Dialog × TurnState :=
  (c.find_dialog dialog_id, s)

/-- `get_internal_version` with the turn state threaded through explicitly. -/
def DialogContainer.get_internal_version_st (c : DialogContainer)
    (s : TurnState) : String × TurnState :=
  (c.get_internal_version, s)

/-- From `dialog_container.py`, `check_for_version_change_async`:
```
current = dialog_context.active_dialog.version
dialog_context.active_dialog.version = self.get_internal_version()
if current and current != dialog_context.active_dialog.version:
    await dialog_context.emit_event(DialogEvents.version_changed, self.id, True, False)
```
`dialog_context.active_dialog` is the top stack entry; dereferencing it on an
empty stack raises (`AttributeError`), modelled as `.error`.  `emit_event` is a
collaborator outside the analysed sources; following the spec's description of
event emission it is modelled as appending the emitted event to the turn's
event log. -/
def DialogContainer.check_for_version_change_async (c : DialogContainer)
    (s : TurnState) : Except String TurnState :=
  match s.ctx.stack with
  | [] => .error "AttributeError"
  | inst :: rest =>
    let current := inst.version
    let next := c.get_internal_version
    let ctx2 : DialogContext := { stack := { inst with version := some next } :: rest }
    if strTruthy current ∧ current ≠ some next then
      .ok { s with
            ctx := ctx2
            events := s.events ++
              [{ name := DialogEvents.version_changed, value := c.id,
                 bubble := true, from_leaf := false }] }
    else
      .ok { s with ctx := ctx2 }

/-- From `dialog_container.py`, `on_dialog_event`:
```
handled = await super().on_dialog_event(dialog_context, dialog_event)
if not handled and dialog_event.name == DialogEvents.version_changed:
    trace_message = f"Unhandled dialog event: {dialog_event.name}. Active Dialog: {dialog_context.active_dialog.id}"
    await dialog_context.context.send_trace_activity(trace_message)
return handled
```
The base `Dialog.on_dialog_event` and the turn context's `send_trace_activity`
are collaborators outside the analysed sources; they enter as parameters:
`base` is the outcome of the awaited base call (a verdict, or a raised
exception), and `trace_send` is the collaborator's outcome on a given message
(per the spec, the base dialog behavior and the trace sink do not touch
`active_dialog.version` or the stack).  A successful trace send is recorded in
the turn's trace log. -/
def DialogContainer.on_dialog_event (_c : DialogContainer)
    (base : Except String Bool) (trace_send : String → Except String Unit)
    (s : TurnState) (dialog_event : DialogEvent) :
    Except String (Bool × TurnState) :=
  match base with
  | .error e => .error e
  | .ok handled =>
    if !handled && (dialog_event.name == DialogEvents.version_changed) then
      match s.ctx.active_dialog with
      | none => .error "AttributeError"
      | some inst =>
        let trace_message :=
          "Unhandled dialog event: " ++ dialog_event.name ++
            ". Active Dialog: " ++ inst.id
        match trace_send trace_message with
        | .error e => .error e
        | .ok _ => .ok (handled, { s with traces := s.traces ++ [trace_message] })
    else
      .ok (handled, s)

/-- Functional characterization of `check_for_version_change_async` on a
non-empty stack: the top instance's version is overwritten with the fresh
fingerprint, and the `versionChanged` event is appended exactly when the old
stored value was truthy and differs from the fresh fingerprint. -/
lemma check_for_version_change_spec (c : DialogContainer) (s : TurnState)
    (inst : DialogInstance) (rest : List DialogInstance)
    (h : s.ctx.stack = inst :: rest) :
    c.check_for_version_change_async s =
      .ok { s with
            ctx := ⟨{ inst with version := some c.get_internal_version } :: rest⟩
            events := s.events ++
              (if strTruthy inst.version = true ∧
                  inst.version ≠ some c.get_internal_version
               then [{ name := DialogEvents.version_changed, value := c.id,
                       bubble := true, from_leaf := false }] else []) } := by
  obtain ⟨⟨stk⟩, tr, evs⟩ := s
  simp only at h
  subst h
  unfold DialogContainer.check_for_version_change_async
  dsimp only
  split_ifs with hc
  · rfl
  · simp only [List.append_nil]

/-- A concrete container used by the witness theorems: id `"root"`, owning the
dialog set `{"a", "b"}`. -/
def sampleContainer : DialogContainer :=
  { id := "root", dialogs := ⟨[⟨"a", none⟩, ⟨"b", some "1"⟩]⟩ }

/-- C1: on a `DialogContext` whose `active_dialog` is set,
`check_for_version_change_async` writes `self.get_internal_version()` into
`active_dialog.version` unconditionally (the new stack holds the fresh
fingerprint whether or not an event fires), and the emit decision is a
function of the OLD stored value `current = inst.version`: exactly one event
is appended when `current` is truthy and differs from the fresh fingerprint,
none otherwise. -/
theorem check_writes_fresh_version (c : DialogContainer) (s : TurnState)
    (inst : DialogInstance) (rest : List DialogInstance)
    (h : s.ctx.stack = inst :: rest) :
    ∃ s2, c.check_for_version_change_async s = .ok s2 ∧
      s2.ctx.stack = { inst with version := some c.get_internal_version } :: rest ∧
      s2.ctx.active_dialog =
        some { inst with version := some c.get_internal_version } ∧
      s2.events.length = s.events.length +
        (if strTruthy inst.version = true ∧
            inst.version ≠ some c.get_internal_version then 1 else 0) := by
  refine ⟨_, check_for_version_change_spec c s inst rest h, rfl, rfl, ?_⟩
  split_ifs with hc <;> simp

/-- Witness for C1 at a concrete stale instance: the stored version becomes
the fresh fingerprint and exactly one event is emitted. -/
theorem check_writes_fresh_version_witness :
    ∃ s2, sampleContainer.check_for_version_change_async
        { ctx := ⟨[⟨"root", some "stale"⟩]⟩, traces := [], events := [] } = .ok s2 ∧
      s2.ctx.stack = [⟨"root", some sampleContainer.get_internal_version⟩] ∧
      s2.ctx.active_dialog =
        some ⟨"root", some sampleContainer.get_internal_version⟩ ∧
      s2.events.length = 0 +
        (if strTruthy (some "stale") = true ∧
            (some "stale" : Option String) ≠
              some sampleContainer.get_internal_version then 1 else 0) :=
  check_writes_fresh_version sampleContainer _ ⟨"root", some "stale"⟩ [] rfl

/-- C2: `check_for_version_change_async` emits a `DialogEvent` iff the
previously stored `current` was set (non-null, non-empty: `strTruthy`) and
differs from the fresh fingerprint; the emitted event is exactly
`name = "versionChanged"`, `value = self.id`, `bubble = true`,
`from_leaf = false`.  In particular `inst.version = none` (first-ever run)
makes `strTruthy` false, so no event is emitted regardless of the fingerprint.
No trace is sent either way. -/
theorem versionChanged_event_iff (c : DialogContainer) (s : TurnState)
    (inst : DialogInstance) (rest : List DialogInstance)
    (h : s.ctx.stack = inst :: rest) :
    ∃ s2, c.check_for_version_change_async s = .ok s2 ∧
      s2.events = s.events ++
        (if strTruthy inst.version = true ∧
            inst.version ≠ some c.get_internal_version
         then [{ name := "versionChanged", value := c.id,
                 bubble := true, from_leaf := false }] else []) ∧
      s2.traces = s.traces :=
  ⟨_, check_for_version_change_spec c s inst rest h, rfl, rfl⟩

/-- Witness for C2 at a concrete first-run instance (`version = none`): the
condition is false, so the event log stays empty. -/
theorem versionChanged_event_iff_witness :
    ∃ s2, sampleContainer.check_for_version_change_async
        { ctx := ⟨[⟨"root", none⟩]⟩, traces := [], events := [] } = .ok s2 ∧
      s2.events = [] ++
        (if strTruthy none = true ∧
            (none : Option String) ≠ some sampleContainer.get_internal_version
         then [{ name := "versionChanged", value := sampleContainer.id,
                 bubble := true, from_leaf := false }] else []) ∧
      s2.traces = [] :=
  versionChanged_event_iff sampleContainer _ ⟨"root", none⟩ [] rfl

/-- C3: two successive calls of `check_for_version_change_async` on the same
context (same container, hence the same deterministic
`get_internal_version`) emit at most one `versionChanged` event: the second
call reads back the fingerprint the first call wrote and adds no event. -/
theorem check_twice_at_most_one_event (c : DialogContainer) (s : TurnState)
    (inst : DialogInstance) (rest : List DialogInstance)
    (h : s.ctx.stack = inst :: rest) :
    ∃ s1 s2, c.check_for_version_change_async s = .ok s1 ∧
      c.check_for_version_change_async s1 = .ok s2 ∧
      s2.events = s1.events ∧
      s1.events.length ≤ s.events.length + 1 := by
  have h1 := check_for_version_change_spec c s inst rest h
  have h2 := check_for_version_change_spec c
    { ctx := ⟨{ inst with version := some c.get_internal_version } :: rest⟩
      traces := s.traces
      events := s.events ++
        (if strTruthy inst.version = true ∧
            inst.version ≠ some c.get_internal_version
         then [{ name := DialogEvents.version_changed, value := c.id,
                 bubble := true, from_leaf := false }] else []) }
    { inst with version := some c.get_internal_version } rest rfl
  refine ⟨_, _, h1, h2, ?_, ?_⟩
  · simp
  · split_ifs with hc <;> simp

/-- Witness for C3 at a concrete stale instance: the first call emits, the
second call is silent. -/
theorem check_twice_at_most_one_event_witness :
    ∃ s1 s2, sampleContainer.check_for_version_change_async
        { ctx := ⟨[⟨"root", some "stale"⟩]⟩, traces := [], events := [] } = .ok s1 ∧
      sampleContainer.check_for_version_change_async s1 = .ok s2 ∧
      s2.events = s1.events ∧
      s1.events.length ≤ ([] : List DialogEvent).length + 1 :=
  check_twice_at_most_one_event sampleContainer _ ⟨"root", some "stale"⟩ [] rfl

/-- A trace collaborator that accepts every message (used by witnesses). -/
def traceOk : String → Except String Unit := fun _ => .ok ()

/-- A trace collaborator that raises on every message (used by witnesses). -/
def traceFail : String → Except String Unit := fun _ => .error "boom"

/-- C4: when the base handler did not handle the event and the event name is
`versionChanged`, `on_dialog_event` sends exactly one trace message — the
string containing the event name and the active dialog's id — through the
turn context's trace collaborator; when the base handler handled it, or the
name is different, no trace is sent and the state is untouched. -/
theorem unhandled_versionChanged_traced (c : DialogContainer)
    (trace_send : String → Except String Unit) (s : TurnState)
    (ev ev2 : DialogEvent) (inst : DialogInstance) (b : Bool)
    (ha : s.ctx.active_dialog = some inst)
    (hn : ev.name = DialogEvents.version_changed)
    (hn2 : ev2.name ≠ DialogEvents.version_changed)
    (ht : trace_send ("Unhandled dialog event: " ++ ev.name ++
            ". Active Dialog: " ++ inst.id) = .ok ()) :
    c.on_dialog_event (.ok false) trace_send s ev =
      .ok (false, { s with traces := s.traces ++
        ["Unhandled dialog event: " ++ ev.name ++
          ". Active Dialog: " ++ inst.id] }) ∧
    c.on_dialog_event (.ok true) trace_send s ev = .ok (true, s) ∧
    c.on_dialog_event (.ok b) trace_send s ev2 = .ok (b, s) := by
  rw [hn] at ht
  refine ⟨?_, ?_, ?_⟩
  · simp [DialogContainer.on_dialog_event, hn, ha, ht]
  · simp [DialogContainer.on_dialog_event]
  · simp [DialogContainer.on_dialog_event, hn2]

/-- Witness for C4 at a concrete unhandled `versionChanged` event and a
concrete differently-named event. -/
theorem unhandled_versionChanged_traced_witness :
    sampleContainer.on_dialog_event (.ok false) traceOk
        { ctx := ⟨[⟨"child", none⟩]⟩ } ⟨"versionChanged", "p", true, false⟩ =
      .ok (false, { ctx := ⟨[⟨"child", none⟩]⟩, traces :=
        [] ++ ["Unhandled dialog event: " ++ "versionChanged" ++
          ". Active Dialog: " ++ "child"] }) ∧
    sampleContainer.on_dialog_event (.ok true) traceOk
        { ctx := ⟨[⟨"child", none⟩]⟩ } ⟨"versionChanged", "p", true, false⟩ =
      .ok (true, { ctx := ⟨[⟨"child", none⟩]⟩ }) ∧
    sampleContainer.on_dialog_event (.ok true) traceOk
        { ctx := ⟨[⟨"child", none⟩]⟩ } ⟨"activityReceived", "p", true, false⟩ =
      .ok (true, { ctx := ⟨[⟨"child", none⟩]⟩ }) :=
  unhandled_versionChanged_traced sampleContainer traceOk
    { ctx := ⟨[⟨"child", none⟩]⟩ } ⟨"versionChanged", "p", true, false⟩
    ⟨"activityReceived", "p", true, false⟩ ⟨"child", none⟩ true
    rfl rfl (by decide) rfl

/-- C5: whenever `on_dialog_event` returns normally, the boolean it returns is
exactly the base `Dialog` handler's verdict: the trace branch never flips the
result.  In particular an unhandled `versionChanged` event stays unhandled
(and keeps bubbling) after the trace is sent. -/
theorem on_dialog_event_returns_base_verdict (c : DialogContainer)
    (base : Except String Bool) (trace_send : String → Except String Unit)
    (s : TurnState) (ev : DialogEvent) (b : Bool) (s2 : TurnState)
    (h : c.on_dialog_event base trace_send s ev = .ok (b, s2)) :
    base = .ok b := by
  cases base with
  | error e => simp [DialogContainer.on_dialog_event] at h
  | ok handled =>
    simp only [DialogContainer.on_dialog_event] at h
    split at h
    · split at h
      · simp at h
      · split at h
        · simp at h
        · simp_all
    · simp_all

/-- Witness for C5: a concrete run whose returned verdict is read back. -/
theorem on_dialog_event_returns_base_verdict_witness :
    (Except.ok false : Except String Bool) = .ok false :=
  on_dialog_event_returns_base_verdict sampleContainer (.ok false) traceOk
    { ctx := ⟨[⟨"child", none⟩]⟩ } ⟨"versionChanged", "p", true, false⟩ false
    { ctx := ⟨[⟨"child", none⟩]⟩, traces :=
      ["Unhandled dialog event: versionChanged. Active Dialog: child"] }
    rfl

/-- C6: frame property of the container's operations.  `find_dialog` and
`get_internal_version` touch no turn state at all; `on_dialog_event` leaves
the dialog context (hence `active_dialog.version` and the whole stack)
unchanged; and `check_for_version_change_async` — the only writer of
`active_dialog.version` — preserves the stack's shape (the ids of the
instances on it). -/
theorem container_ops_frame (c : DialogContainer) (dialog_id : String)
    (base : Except String Bool) (trace_send : String → Except String Unit)
    (s s2 s3 : TurnState) (ev : DialogEvent) (b : Bool)
    (hode : c.on_dialog_event base trace_send s ev = .ok (b, s2))
    (hchk : c.check_for_version_change_async s = .ok s3) :
    (c.find_dialog_st dialog_id s).2 = s ∧
    (c.get_internal_version_st s).2 = s ∧
    s2.ctx = s.ctx ∧
    s3.ctx.stack.map DialogInstance.id = s.ctx.stack.map DialogInstance.id := by
  refine ⟨rfl, rfl, ?_, ?_⟩
  · cases base with
    | error e => simp [DialogContainer.on_dialog_event] at hode
    | ok handled =>
      simp only [DialogContainer.on_dialog_event] at hode
      split at hode
      · split at hode
        · simp at hode
        · split at hode
          · simp at hode
          · injection hode with h
            injection h with h1 h2
            rw [← h2]
      · injection hode with h
        injection h with h1 h2
        rw [← h2]
  · rcases hs : s.ctx.stack with - | ⟨inst, rest⟩
    · unfold DialogContainer.check_for_version_change_async at hchk
      rw [hs] at hchk
      simp at hchk
    · rw [check_for_version_change_spec c s inst rest hs] at hchk
      rw [← Except.ok.inj hchk]
      simp

/-- Witness for C6 at a concrete unhandled `versionChanged` run. -/
theorem container_ops_frame_witness :
    (sampleContainer.find_dialog_st "a"
      { ctx := ⟨[⟨"root", some "old"⟩]⟩ }).2 = { ctx := ⟨[⟨"root", some "old"⟩]⟩ } ∧
    (sampleContainer.get_internal_version_st
      { ctx := ⟨[⟨"root", some "old"⟩]⟩ }).2 = { ctx := ⟨[⟨"root", some "old"⟩]⟩ } ∧
    ({ ctx := ⟨[⟨"root", some "old"⟩]⟩, traces :=
        ["Unhandled dialog event: versionChanged. Active Dialog: root"] } :
      TurnState).ctx = ({ ctx := ⟨[⟨"root", some "old"⟩]⟩ } : TurnState).ctx ∧
    ({ ctx := ⟨[⟨"root", some sampleContainer.get_internal_version⟩]⟩,
        events := [⟨DialogEvents.version_changed, "root", true, false⟩] } :
      TurnState).ctx.stack.map DialogInstance.id =
      ({ ctx := ⟨[⟨"root", some "old"⟩]⟩ } : TurnState).ctx.stack.map
        DialogInstance.id :=
  container_ops_frame sampleContainer "a" (.ok false) traceOk
    { ctx := ⟨[⟨"root", some "old"⟩]⟩ }
    { ctx := ⟨[⟨"root", some "old"⟩]⟩, traces :=
      ["Unhandled dialog event: versionChanged. Active Dialog: root"] }
    { ctx := ⟨[⟨"root", some sampleContainer.get_internal_version⟩]⟩,
      events := [⟨DialogEvents.version_changed, "root", true, false⟩] }
    ⟨"versionChanged", "p", true, false⟩ false rfl rfl

/-- C7: exceptions propagate unchanged out of `on_dialog_event`: a failure of
the base `Dialog` handler is re-raised as is, and a failure of the trace
collaborator on the unhandled-`versionChanged` path is re-raised as is; the
container installs no swallowing around either. -/
theorem on_dialog_event_propagates_errors (c : DialogContainer)
    (trace_send : String → Except String Unit) (s : TurnState)
    (ev : DialogEvent) (e e2 : String) (inst : DialogInstance)
    (ha : s.ctx.active_dialog = some inst)
    (hn : ev.name = DialogEvents.version_changed)
    (ht : trace_send ("Unhandled dialog event: " ++ ev.name ++
            ". Active Dialog: " ++ inst.id) = .error e2) :
    c.on_dialog_event (.error e) trace_send s ev = .error e ∧
    c.on_dialog_event (.ok false) trace_send s ev = .error e2 := by
  rw [hn] at ht
  exact ⟨rfl, by simp [DialogContainer.on_dialog_event, hn, ha, ht]⟩

/-- Witness for C7 with a concrete failing base handler and a concrete
failing trace collaborator. -/
theorem on_dialog_event_propagates_errors_witness :
    sampleContainer.on_dialog_event (.error "child failure") traceFail
        { ctx := ⟨[⟨"child", none⟩]⟩ } ⟨"versionChanged", "p", true, false⟩ =
      .error "child failure" ∧
    sampleContainer.on_dialog_event (.ok false) traceFail
        { ctx := ⟨[⟨"child", none⟩]⟩ } ⟨"versionChanged", "p", true, false⟩ =
      .error "boom" :=
  on_dialog_event_propagates_errors sampleContainer traceFail
    { ctx := ⟨[⟨"child", none⟩]⟩ } ⟨"versionChanged", "p", true, false⟩
    "child failure" "boom" ⟨"child", none⟩ rfl rfl rfl

/-- C8: `find_dialog` returns exactly `self.dialogs.find_dialog(dialog_id)`,
threads the turn state through untouched, and on an id absent from the
`DialogSet` yields the not-found result (`none`) rather than raising. -/
theorem find_dialog_delegates (c : DialogContainer) (dialog_id : String)
    (s : TurnState)
    (habsent : ∀ d ∈ c.dialogs.dialogs, d.id ≠ dialog_id) :
    c.find_dialog dialog_id = c.dialogs.find_dialog dialog_id ∧
    c.find_dialog_st dialog_id s = (c.dialogs.find_dialog dialog_id, s) ∧
    c.find_dialog dialog_id = none := by
  refine ⟨rfl, rfl, ?_⟩
  unfold DialogContainer.find_dialog DialogSet.find_dialog
  rw [List.find?_eq_none]
  intro d hd
  simp [habsent d hd]

/-- Witness for C8: looking up `"missing"` in the sample container, whose set
holds only `"a"` and `"b"`, returns not-found. -/
theorem find_dialog_delegates_witness :
    sampleContainer.find_dialog "missing" =
      sampleContainer.dialogs.find_dialog "missing" ∧
    sampleContainer.find_dialog_st "missing" { ctx := ⟨[⟨"root", none⟩]⟩ } =
      (sampleContainer.dialogs.find_dialog "missing",
        { ctx := ⟨[⟨"root", none⟩]⟩ }) ∧
    sampleContainer.find_dialog "missing" = none :=
  find_dialog_delegates sampleContainer "missing"
    { ctx := ⟨[⟨"root", none⟩]⟩ } (by decide)

/-- C9: the default `get_internal_version` returns exactly the child
`DialogSet`'s structural fingerprint, folding in no other container state and
mutating nothing. -/
theorem get_internal_version_delegates (c : DialogContainer) (s : TurnState) :
    c.get_internal_version = c.dialogs.get_internal_version ∧
    c.get_internal_version_st s = (c.dialogs.get_internal_version, s) :=
  ⟨rfl, rfl⟩

/-- C10: implicit precondition on the stack.  On an empty stack,
`check_for_version_change_async` dereferences `active_dialog` and raises, and
`on_dialog_event`'s unhandled-`versionChanged` branch dereferences
`active_dialog.id` and raises; on a non-empty stack both operations complete
normally. -/
theorem active_dialog_precondition (c : DialogContainer)
    (trace_send : String → Except String Unit) (ev : DialogEvent)
    (s s2 : TurnState) (inst : DialogInstance)
    (hempty : s.ctx.stack = [])
    (hn : ev.name = DialogEvents.version_changed)
    (hne : s2.ctx.stack.head? = some inst)
    (ht : trace_send ("Unhandled dialog event: " ++ ev.name ++
            ". Active Dialog: " ++ inst.id) = .ok ()) :
    c.check_for_version_change_async s = .error "AttributeError" ∧
    c.on_dialog_event (.ok false) trace_send s ev = .error "AttributeError" ∧
    (∃ s3, c.check_for_version_change_async s2 = .ok s3) ∧
    (∃ b s4, c.on_dialog_event (.ok false) trace_send s2 ev = .ok (b, s4)) := by
  rw [hn] at ht
  refine ⟨?_, ?_, ?_, ?_⟩
  · unfold DialogContainer.check_for_version_change_async
    rw [hempty]
  · simp [DialogContainer.on_dialog_event, hn, DialogContext.active_dialog,
      hempty]
  · rcases hs : s2.ctx.stack with - | ⟨i, r⟩
    · rw [hs] at hne
      simp at hne
    · exact ⟨_, check_for_version_change_spec c s2 i r hs⟩
  · exact ⟨false,
      { s2 with traces := s2.traces ++
        ["Unhandled dialog event: " ++ DialogEvents.version_changed ++
          ". Active Dialog: " ++ inst.id] },
      by simp [DialogContainer.on_dialog_event, hn,
        DialogContext.active_dialog, hne, ht]⟩

/-- Witness for C10: an empty stack makes both operations raise; a singleton
stack makes both complete. -/
theorem active_dialog_precondition_witness :
    sampleContainer.check_for_version_change_async { ctx := ⟨[]⟩ } =
      .error "AttributeError" ∧
    sampleContainer.on_dialog_event (.ok false) traceOk { ctx := ⟨[]⟩ }
        ⟨"versionChanged", "p", true, false⟩ = .error "AttributeError" ∧
    (∃ s3, sampleContainer.check_for_version_change_async
      { ctx := ⟨[⟨"leaf", none⟩]⟩ } = .ok s3) ∧
    (∃ b s4, sampleContainer.on_dialog_event (.ok false) traceOk
      { ctx := ⟨[⟨"leaf", none⟩]⟩ } ⟨"versionChanged", "p", true, false⟩ =
        .ok (b, s4)) :=
  active_dialog_precondition sampleContainer traceOk
    ⟨"versionChanged", "p", true, false⟩ { ctx := ⟨[]⟩ }
    { ctx := ⟨[⟨"leaf", none⟩]⟩ } ⟨"leaf", none⟩ rfl rfl rfl rfl
